import Mathlib

/-!
Shallow embedding of `src/dags/model_evaluate.py`, an Airflow DAG with four
tasks: `data_collect`, `evaluate`, `collect_metric`, `send_result`.

Modelling conventions:
* Numeric matrices (pandas DataFrames / numpy 2-D arrays) are `List (List ℚ)`:
  rows of rational cells.  Rationals stand in for IEEE floats; every claim
  below is about exact identities the code computes, so this is faithful.
* A missing value (NaN in a pandas cell) is `none` in `Option ℚ`.
* sklearn's `r2_score` returns the float NaN when given fewer than two
  samples ("R^2 score is not well-defined with less than two samples.", an
  `UndefinedMetricWarning`); that NaN result is modelled as `none` in
  `Option ℚ`.
* Python exceptions are modelled with `Except String`: `.error msg` is a
  raised exception carrying its message.
* The external collaborators from `util` (`_GET_PREDICTION`, `_GET_QA`,
  `_LOG_METRIC`, `_SEND_RESULT`) are parameters of the pipeline model; their
  possible failures are `Except` values.
-/

namespace ModelEvaluate

/-- The metrics dictionary built by the `evaluate` task
(`src/dags/model_evaluate.py`, lines 97-102).  It has exactly the four keys
`r2_score`, `mse_score`, `pos_max_err`, `neg_max_err`.  `r2_score` is
`none` when sklearn returns NaN (fewer than two samples). -/
structure Metrics where
  r2_score : Option ℚ
  mse_score : ℚ
  pos_max_err : ℚ
  neg_max_err : ℚ
deriving DecidableEq

/-- Number of columns of a matrix, read off its first row. -/
def ncols (m : List (List ℚ)) : ℕ := (m.headD []).length

/-- A matrix is rectangular: every row has the common length. -/
def rectB (m : List (List ℚ)) : Bool := m.all (fun r => r.length == ncols m)

/-- The shape `(n_rows, n_cols)` of a (rectangular) matrix, as numpy's
`.shape` reports it. -/
def shape (m : List (List ℚ)) : ℕ × ℕ := (m.length, ncols m)

/-- sklearn's `check_array` on a 2-D input (as called from
`_check_reg_targets`): rejects 0 samples, ragged data, and 0 features,
otherwise reports the shape. -/
def checkArray (m : List (List ℚ)) : Except String (ℕ × ℕ) :=
  if m.length = 0 then .error "Found array with 0 sample(s)"
  else if !rectB m then .error "setting an array element with a sequence"
  else if ncols m = 0 then .error "Found array with 0 feature(s)"
  else .ok (m.length, ncols m)

/-- Column `j` of a matrix. -/
def col (m : List (List ℚ)) (j : ℕ) : List ℚ := m.map (fun r => r.getD j 0)

/-- Mean of column `j` of `y_true` (numpy `np.average(y_true, axis=0)`). -/
def colMean (yt : List (List ℚ)) (j : ℕ) : ℚ := (col yt j).sum / yt.length

/-- Per-column residual sum of squares `((y_true - y_pred) ** 2).sum(axis=0)`
from sklearn's `r2_score`. -/
def colNum (yt yp : List (List ℚ)) (j : ℕ) : ℚ :=
  ((yt.zip yp).map (fun rp => (rp.1.getD j 0 - rp.2.getD j 0) ^ 2)).sum

/-- Per-column total sum of squares
`((y_true - np.average(y_true, axis=0)) ** 2).sum(axis=0)`. -/
def colDen (yt : List (List ℚ)) (j : ℕ) : ℚ :=
  (yt.map (fun r => (r.getD j 0 - colMean yt j) ^ 2)).sum

/-- sklearn's per-output R² score: starts from 1, is `1 - num/den` when both
numerator and denominator are nonzero, and is forced to 0 when the numerator
is nonzero but the denominator is zero. -/
def colScore (yt yp : List (List ℚ)) (j : ℕ) : ℚ :=
  if colNum yt yp j = 0 then 1
  else if colDen yt j = 0 then 0
  else 1 - colNum yt yp j / colDen yt j

/-- sklearn's `r2_score(y_true, y_pred)` with the default
`multioutput="uniform_average"`: shape validation as in
`_check_reg_targets` / `check_consistent_length`, NaN (`none`) for fewer
than two samples, otherwise the uniform average of the per-column scores. -/
def r2_score (yt yp : List (List ℚ)) : Except String (Option ℚ) :=
  if yt.length ≠ yp.length then
    .error "Found input variables with inconsistent numbers of samples"
  else
    match checkArray yt, checkArray yp with
    | .error e, _ => .error e
    | .ok _, .error e => .error e
    | .ok (_, k), .ok (_, k2) =>
      if k ≠ k2 then .error "y_true and y_pred have different number of output"
      else if yt.length < 2 then .ok none
      else .ok (some ((((List.range k).map (colScore yt yp)).sum) / k))

/-- sklearn's `mean_squared_error(y_true, y_pred)`: same shape validation,
then the uniform average of `(y_true - y_pred) ** 2` over all cells. -/
def mean_squared_error (yt yp : List (List ℚ)) : Except String ℚ :=
  if yt.length ≠ yp.length then
    .error "Found input variables with inconsistent numbers of samples"
  else
    match checkArray yt, checkArray yp with
    | .error e, _ => .error e
    | .ok _, .error e => .error e
    | .ok (n, k), .ok (_, k2) =>
      if k ≠ k2 then .error "y_true and y_pred have different number of output"
      else .ok ((((yt.zip yp).map
        (fun rp => ((rp.1.zip rp.2).map (fun ab => (ab.1 - ab.2) ^ 2)).sum)).sum)
          / (n * k))

/-- Element-wise matrix difference `a - b`
(`prediction.values - ground_truth.values`, line 93). -/
def matSub (a b : List (List ℚ)) : List (List ℚ) :=
  (a.zip b).map (fun rp => (rp.1.zip rp.2).map (fun xy => xy.1 - xy.2))

/-- numpy `arr.max()`: maximum over all elements, an exception on an empty
array. -/
def amax (m : List (List ℚ)) : Except String ℚ :=
  match m.flatten with
  | [] => .error "zero-size array to reduction operation maximum"
  | x :: xs => .ok (xs.foldl max x)

/-- numpy `arr.min()`: minimum over all elements, an exception on an empty
array. -/
def amin (m : List (List ℚ)) : Except String ℚ :=
  match m.flatten with
  | [] => .error "zero-size array to reduction operation minimum"
  | x :: xs => .ok (xs.foldl min x)

/-- The body of the `evaluate` task (lines 90-105): `r2_score`, then
`mean_squared_error`, then the signed error extrema of
`prediction - ground_truth`; the first raised exception aborts the task
before any later metric is computed, and on success the four metrics are
returned as one record. -/
def evaluate (ground_truth prediction : List (List ℚ)) : Except String Metrics :=
  match r2_score ground_truth prediction with
  | .error e => .error e
  | .ok r2 =>
    match mean_squared_error ground_truth prediction with
    | .error e => .error e
    | .ok mse =>
      match amax (matSub prediction ground_truth),
            amin (matSub prediction ground_truth) with
      | .error e, _ => .error e
      | .ok _, .error e => .error e
      | .ok pos, .ok neg => .ok ⟨r2, mse, pos, neg⟩

/-- One row of the ground-truth table returned by `_GET_QA`: its
`mapping_uid` and its named cells (a cell is `none` when the measurement is
missing / NaN). -/
structure QARow where
  mapping_uid : ℕ
  cells : String → Option ℚ

/-- Python `set(a) == set(b)` on uid collections. -/
def setEq (a b : List ℕ) : Bool :=
  a.all (fun x => b.contains x) && b.all (fun x => a.contains x)

/-- The dictionary returned by the `data_collect` task, plus the flag
recording whether the uid-mismatch warning was printed. -/
structure CollectResult where
  prediction : List (List ℚ)
  ground_truth : List (List ℚ)
  warned : Bool
deriving DecidableEq

/-- `ground_truth[targets_name]` restricted to one row: the row's cells in
the order of `targets_name`. -/
def selectRow (targets : List String) (r : QARow) : List (Option ℚ) :=
  targets.map r.cells

/-- The body of the `data_collect` task (lines 47-72), with the results of
the external fetches as inputs: `prediction, uid = _GET_PREDICTION(...)`,
`qa = _GET_QA(...)`.  It captures `g_uid = ground_truth['mapping_uid']`
BEFORE restricting to target columns and dropping rows, drops every
ground-truth row with a missing value in a target column (`dropna`),
compares `set(uid) == set(g_uid)` and prints a warning (never raises) on
mismatch, and returns prediction and ground truth as-is. -/
def data_collect (prediction : List (List ℚ)) (uid : List ℕ)
    (qa : List QARow) (targets : List String) : CollectResult :=
  let g_uid := qa.map (fun r => r.mapping_uid)
  let selected := qa.map (selectRow targets)
  let dropped := selected.filter (fun row => row.all (fun c => c.isSome))
  let ground_truth := dropped.map (fun row => row.map (fun c => c.getD 0))
  let uids_match := setEq uid g_uid
  { prediction := prediction, ground_truth := ground_truth,
    warned := !uids_match }

/-- The `try/except` wrapper shared by all four tasks: on an exception it
prints `Error in <stage>: <message>` and re-raises the same exception
(`raise e`); on success it returns the body's value.  The first component is
the list of diagnostic messages printed by the except-branch. -/
def runStage {α : Type} (name : String) (body : Except String α) :
    List String × Except String α :=
  match body with
  | .ok a => ([], .ok a)
  | .error e => (["Error in " ++ name ++ ": " ++ e], .error e)

/-- The `data_collect` task: fetch the prediction and the QA table (either
fetch may raise), then run the pure collection body, under the
try/except wrapper. -/
def data_collect_task (fetchPred : Except String (List (List ℚ) × List ℕ))
    (fetchQA : Except String (List QARow)) (targets : List String) :
    List String × Except String CollectResult :=
  runStage "data_collect" (do
    let pu ← fetchPred
    let qa ← fetchQA
    pure (data_collect pu.1 pu.2 qa targets))

/-- The `evaluate` task: the metric computation under the try/except
wrapper. -/
def evaluate_task (ground_truth prediction : List (List ℚ)) :
    List String × Except String Metrics :=
  runStage "evaluate" (evaluate ground_truth prediction)

/-- The `collect_metric` task: `_LOG_METRIC(model_id, metrics)` under the
try/except wrapper. -/
def collect_metric_task {α : Type} (logMetric : String → Metrics → Except String α)
    (model_id : String) (metrics : Metrics) : List String × Except String α :=
  runStage "collect_metric" (logMetric model_id metrics)

/-- The `send_result` task: `_SEND_RESULT(model_id, dag_run, metrics)` under
the try/except wrapper. -/
def send_result_task {α D : Type} (sendResult : String → D → Metrics → Except String α)
    (model_id : String) (dag_run : D) (metrics : Metrics) :
    List String × Except String α :=
  runStage "send_result" (sendResult model_id dag_run metrics)

/-- The DAG wiring (lines 159-168): `data_collect`, then `evaluate` on its
outputs, then `collect_metric(metrics)` and `send_result(metrics)`, each
applied to the same metrics record and to nothing produced by the other.
The two downstream responses are returned as independent `Except` values
(in Airflow the two tasks run independently of each other). -/
def model_evaluate {α β D : Type}
    (fetchPred : Except String (List (List ℚ) × List ℕ))
    (fetchQA : Except String (List QARow)) (targets : List String)
    (model_id : String) (dag_run : D)
    (logMetric : String → Metrics → Except String α)
    (sendResult : String → D → Metrics → Except String β) :
    Except String (Metrics × Except String α × Except String β) :=
  match (data_collect_task fetchPred fetchQA targets).2 with
  | .error e => .error e
  | .ok c =>
    match (evaluate_task c.ground_truth c.prediction).2 with
    | .error e => .error e
    | .ok m =>
      .ok (m, (collect_metric_task logMetric model_id m).2,
              (send_result_task sendResult model_id dag_run m).2)

/-- Prediction shifted by a constant `c` in every cell. -/
def addC (m : List (List ℚ)) (c : ℚ) : List (List ℚ) :=
  m.map (fun r => r.map (fun x => x + c))

/-! ### Helper lemmas -/

lemma zip_self {α : Type} (l : List α) : l.zip l = l.map (fun x => (x, x)) := by
  induction l with
  | nil => rfl
  | cons a t ih => simp [List.zip_cons_cons, ih]

lemma zip_map_left {α β : Type} (f : α → β) (l : List α) :
    (l.map f).zip l = l.map (fun x => (f x, x)) := by
  induction l with
  | nil => rfl
  | cons a t ih => simp [List.zip_cons_cons, ih]

lemma foldl_max_mem (x : ℚ) (xs : List ℚ) : xs.foldl max x ∈ x :: xs := by
  induction xs generalizing x with
  | nil => simp
  | cons y ys ih =>
    have h := ih (max x y)
    rw [List.foldl_cons]
    rcases List.mem_cons.1 h with h1 | h1
    · rw [h1]
      rcases max_choice x y with h2 | h2
      · rw [h2]; exact List.mem_cons_self _ _
      · rw [h2]; exact List.mem_cons.2 (Or.inr (List.mem_cons_self _ _))
    · exact List.mem_cons.2 (Or.inr (List.mem_cons.2 (Or.inr h1)))

lemma le_foldl_max (x : ℚ) (xs : List ℚ) : ∀ y ∈ x :: xs, y ≤ xs.foldl max x := by
  induction xs generalizing x with
  | nil => simp
  | cons z zs ih =>
    intro y hy
    rcases List.mem_cons.1 hy with h1 | h1
    · subst h1
      exact le_trans (le_max_left y z) (ih (max y z) _ (List.mem_cons_self _ _))
    · rcases List.mem_cons.1 h1 with h2 | h2
      · subst h2
        exact le_trans (le_max_right x y) (ih (max x y) _ (List.mem_cons_self _ _))
      · exact ih (max x z) y (List.mem_cons.2 (Or.inr h2))

lemma foldl_min_mem (x : ℚ) (xs : List ℚ) : xs.foldl min x ∈ x :: xs := by
  induction xs generalizing x with
  | nil => simp
  | cons y ys ih =>
    have h := ih (min x y)
    rw [List.foldl_cons]
    rcases List.mem_cons.1 h with h1 | h1
    · rw [h1]
      rcases min_choice x y with h2 | h2
      · rw [h2]; exact List.mem_cons_self _ _
      · rw [h2]; exact List.mem_cons.2 (Or.inr (List.mem_cons_self _ _))
    · exact List.mem_cons.2 (Or.inr (List.mem_cons.2 (Or.inr h1)))

lemma foldl_min_le (x : ℚ) (xs : List ℚ) : ∀ y ∈ x :: xs, xs.foldl min x ≤ y := by
  induction xs generalizing x with
  | nil => simp
  | cons z zs ih =>
    intro y hy
    rcases List.mem_cons.1 hy with h1 | h1
    · subst h1
      exact le_trans (ih (min y z) _ (List.mem_cons_self _ _)) (min_le_left y z)
    · rcases List.mem_cons.1 h1 with h2 | h2
      · subst h2
        exact le_trans (ih (min x y) _ (List.mem_cons_self _ _)) (min_le_right x y)
      · exact ih (min x z) y (List.mem_cons.2 (Or.inr h2))

lemma checkArray_ok (m : List (List ℚ)) (h0 : m.length ≠ 0) (hr : rectB m = true)
    (hc : ncols m ≠ 0) : checkArray m = .ok (m.length, ncols m) := by
  simp [checkArray, h0, hr, hc]

/-- `amax` on a matrix with a nonempty flattening returns an element that
bounds every element from above. -/
lemma amax_spec (m : List (List ℚ)) (hne : m.flatten ≠ []) :
    ∃ v, amax m = .ok v ∧ v ∈ m.flatten ∧ ∀ y ∈ m.flatten, y ≤ v := by
  rcases hfl : m.flatten with _ | ⟨x, xs⟩
  · exact absurd hfl hne
  · refine ⟨xs.foldl max x, ?_, ?_, ?_⟩
    · simp [amax, hfl]
    · exact foldl_max_mem x xs
    · exact le_foldl_max x xs

/-- `amin` on a matrix with a nonempty flattening returns an element that
bounds every element from below. -/
lemma amin_spec (m : List (List ℚ)) (hne : m.flatten ≠ []) :
    ∃ v, amin m = .ok v ∧ v ∈ m.flatten ∧ ∀ y ∈ m.flatten, v ≤ y := by
  rcases hfl : m.flatten with _ | ⟨x, xs⟩
  · exact absurd hfl hne
  · refine ⟨xs.foldl min x, ?_, ?_, ?_⟩
    · simp [amin, hfl]
    · exact foldl_min_mem x xs
    · exact foldl_min_le x xs

lemma amax_const (m : List (List ℚ)) (c : ℚ) (hne : m.flatten ≠ [])
    (hall : ∀ x ∈ m.flatten, x = c) : amax m = .ok c := by
  obtain ⟨v, hv, hmem, _⟩ := amax_spec m hne
  rw [hv, hall v hmem]

lemma amin_const (m : List (List ℚ)) (c : ℚ) (hne : m.flatten ≠ [])
    (hall : ∀ x ∈ m.flatten, x = c) : amin m = .ok c := by
  obtain ⟨v, hv, hmem, _⟩ := amin_spec m hne
  rw [hv, hall v hmem]

/-- `r2_score` on well-shaped inputs: NaN (`none`) below two samples,
otherwise the uniform average of the per-column scores. -/
lemma r2_score_eval (yt yp : List (List ℚ)) (hlen : yt.length = yp.length)
    (h0 : yt.length ≠ 0) (hrt : rectB yt = true) (hct : ncols yt ≠ 0)
    (hrp : rectB yp = true) (hcp : ncols yp = ncols yt) :
    r2_score yt yp = if yt.length < 2 then .ok none
      else .ok (some ((((List.range (ncols yt)).map (colScore yt yp)).sum)
        / (ncols yt : ℚ))) := by
  have h1 : checkArray yt = .ok (yt.length, ncols yt) :=
    checkArray_ok yt h0 hrt hct
  have h2 : checkArray yp = .ok (yp.length, ncols yp) :=
    checkArray_ok yp (hlen ▸ h0) hrp (hcp ▸ hct)
  simp [r2_score, hlen, h1, h2, hcp]

/-- `mean_squared_error` on well-shaped inputs: the sum of squared cell
differences over the cell count. -/
lemma mean_squared_error_eval (yt yp : List (List ℚ)) (hlen : yt.length = yp.length)
    (h0 : yt.length ≠ 0) (hrt : rectB yt = true) (hct : ncols yt ≠ 0)
    (hrp : rectB yp = true) (hcp : ncols yp = ncols yt) :
    mean_squared_error yt yp = .ok ((((yt.zip yp).map
      (fun rp => ((rp.1.zip rp.2).map (fun ab => (ab.1 - ab.2) ^ 2)).sum)).sum)
        / ((yt.length : ℚ) * (ncols yt : ℚ))) := by
  have h1 : checkArray yt = .ok (yt.length, ncols yt) :=
    checkArray_ok yt h0 hrt hct
  have h2 : checkArray yp = .ok (yp.length, ncols yp) :=
    checkArray_ok yp (hlen ▸ h0) hrp (hcp ▸ hct)
  simp [mean_squared_error, hlen, h1, h2, hcp]

/-- `evaluate` assembled from the results of its four metric computations. -/
lemma evaluate_eq (gt pred : List (List ℚ)) (r2 : Option ℚ) (mse p n : ℚ)
    (hr2 : r2_score gt pred = .ok r2)
    (hmse : mean_squared_error gt pred = .ok mse)
    (hmax : amax (matSub pred gt) = .ok p)
    (hmin : amin (matSub pred gt) = .ok n) :
    evaluate gt pred = .ok ⟨r2, mse, p, n⟩ := by
  simp [evaluate, hr2, hmse, hmax, hmin]

/-- The first raised exception in `evaluate` comes from `r2_score`; it
aborts the task. -/
lemma evaluate_error_of_r2 (gt pred : List (List ℚ)) (e : String)
    (h : r2_score gt pred = .error e) : evaluate gt pred = .error e := by
  simp [evaluate, h]

lemma rectB_iff (m : List (List ℚ)) :
    rectB m = true ↔ ∀ r ∈ m, r.length = ncols m := by
  simp [rectB, List.all_eq_true, Nat.beq_eq_true_eq]

/-- A rectangular nonempty matrix with at least one column has a nonempty
flattening. -/
lemma flatten_ne_nil (m : List (List ℚ)) (h0 : m.length ≠ 0)
    (hr : rectB m = true) (hc : ncols m ≠ 0) : m.flatten ≠ [] := by
  rcases m with _ | ⟨r, rs⟩
  · simp at h0
  · intro hfl
    rw [List.flatten_eq_nil_iff] at hfl
    have hrlen : r.length = ncols (r :: rs) :=
      (rectB_iff _).1 hr r (List.mem_cons_self _ _)
    have hr0 : r = [] := hfl r (List.mem_cons_self _ _)
    apply hc
    rw [← hrlen, hr0]
    rfl

/-- Shapes of `matSub`: it zips the two matrices row-wise and cell-wise. -/
lemma matSub_length (a b : List (List ℚ)) (h : a.length = b.length) :
    (matSub a b).length = a.length := by
  simp [matSub, h]

/-- `matSub` of equal-shape rectangular matrices is rectangular with the
same shape. -/
lemma matSub_shape (a b : List (List ℚ)) (hlen : a.length = b.length)
    (hra : rectB a = true) (hrb : rectB b = true) (hc : ncols a = ncols b)
    (h0 : a.length ≠ 0) :
    (matSub a b).length = a.length ∧ rectB (matSub a b) = true ∧
      ncols (matSub a b) = ncols a := by
  rcases a with _ | ⟨ra, ras⟩
  · simp at h0
  · rcases b with _ | ⟨rb, rbs⟩
    · simp at hlen
    · have hra' := (rectB_iff _).1 hra
      have hrb' := (rectB_iff _).1 hrb
      have hralen : ra.length = ncols (ra :: ras) := hra' ra (List.mem_cons_self _ _)
      have hrblen : rb.length = ncols (rb :: rbs) := hrb' rb (List.mem_cons_self _ _)
      have hncols : ncols (matSub (ra :: ras) (rb :: rbs)) = ncols (ra :: ras) := by
        show ((ra.zip rb).map (fun xy => xy.1 - xy.2)).length = ncols (ra :: ras)
        rw [List.length_map, List.length_zip, hralen, hrblen, ← hc]
        exact min_self _
      refine ⟨matSub_length _ _ hlen, ?_, hncols⟩
      rw [rectB_iff]
      intro r hrmem
      rw [hncols]
      simp only [matSub] at hrmem
      obtain ⟨xy, hxy, rfl⟩ := List.mem_map.1 hrmem
      have hx : xy.1 ∈ ra :: ras := (List.of_mem_zip hxy).1
      have hy : xy.2 ∈ rb :: rbs := (List.of_mem_zip hxy).2
      rw [List.length_map, List.length_zip, hra' _ hx, hrb' _ hy, ← hc]
      exact min_self _

/-- Residual sum of squares of a matrix against itself vanishes. -/
lemma colNum_self (yt : List (List ℚ)) (j : ℕ) : colNum yt yt j = 0 := by
  unfold colNum
  rw [zip_self, List.map_map]
  apply List.sum_eq_zero
  intro x hx
  obtain ⟨r, _, rfl⟩ := List.mem_map.1 hx
  simp

/-- sklearn's per-output score of a matrix against itself is 1 (the
numerator is zero, so the degenerate-denominator rule never fires). -/
lemma colScore_self (yt : List (List ℚ)) (j : ℕ) : colScore yt yt j = 1 := by
  simp [colScore, colNum_self]

lemma r2_score_self (yt : List (List ℚ)) (h0 : yt.length ≠ 0)
    (hr : rectB yt = true) (hc : ncols yt ≠ 0) :
    r2_score yt yt = if yt.length < 2 then .ok none else .ok (some 1) := by
  rw [r2_score_eval yt yt rfl h0 hr hc hr rfl]
  rcases lt_or_ge yt.length 2 with h | h
  · simp [h]
  · have hlt : ¬ yt.length < 2 := not_lt.2 h
    simp only [hlt, if_false]
    have hmap : (List.range (ncols yt)).map (colScore yt yt)
        = (List.range (ncols yt)).map (fun _ => (1 : ℚ)) := by
      apply List.map_congr_left
      intro j _
      exact colScore_self yt j
    have hk : ((ncols yt : ℚ)) ≠ 0 := Nat.cast_ne_zero.2 hc
    rw [hmap, List.map_const', List.sum_replicate, nsmul_eq_mul, mul_one,
      List.length_range, div_self hk]

lemma mean_squared_error_self (yt : List (List ℚ)) (h0 : yt.length ≠ 0)
    (hr : rectB yt = true) (hc : ncols yt ≠ 0) :
    mean_squared_error yt yt = .ok 0 := by
  rw [mean_squared_error_eval yt yt rfl h0 hr hc hr rfl]
  have hsum : ((yt.zip yt).map
      (fun rp => ((rp.1.zip rp.2).map (fun ab => (ab.1 - ab.2) ^ 2)).sum)).sum = 0 := by
    rw [zip_self, List.map_map]
    apply List.sum_eq_zero
    intro x hx
    obtain ⟨r, _, rfl⟩ := List.mem_map.1 hx
    simp only [Function.comp_apply]
    rw [zip_self, List.map_map]
    apply List.sum_eq_zero
    intro y hy
    obtain ⟨a, _, rfl⟩ := List.mem_map.1 hy
    simp
  rw [hsum, zero_div]

/-- Every cell of `m - m` is zero. -/
lemma matSub_self_flatten (m : List (List ℚ)) :
    ∀ x ∈ (matSub m m).flatten, x = 0 := by
  intro x hx
  obtain ⟨r, hr, hxr⟩ := List.mem_flatten.1 hx
  simp only [matSub] at hr
  rw [zip_self, List.map_map] at hr
  obtain ⟨row, _, rfl⟩ := List.mem_map.1 hr
  simp only [Function.comp_apply] at hxr
  rw [zip_self, List.map_map] at hxr
  obtain ⟨a, _, rfl⟩ := List.mem_map.1 hxr
  simp

lemma addC_length (m : List (List ℚ)) (c : ℚ) : (addC m c).length = m.length := by
  simp [addC]

lemma ncols_addC (m : List (List ℚ)) (c : ℚ) : ncols (addC m c) = ncols m := by
  rcases m with _ | ⟨r, rs⟩
  · rfl
  · simp [addC, ncols]

lemma rectB_addC (m : List (List ℚ)) (c : ℚ) (h : rectB m = true) :
    rectB (addC m c) = true := by
  rw [rectB_iff]
  intro r hr
  simp only [addC] at hr
  obtain ⟨row, hrow, rfl⟩ := List.mem_map.1 hr
  rw [List.length_map, ncols_addC]
  exact (rectB_iff m).1 h row hrow

/-- Row-wise: `(r + c) - r` is the constant row `c`. -/
lemma zip_map_add_sub (r : List ℚ) (c : ℚ) :
    ((r.map (fun x => x + c)).zip r).map (fun xy => xy.1 - xy.2)
      = r.map (fun _ => c) := by
  rw [zip_map_left, List.map_map]
  apply List.map_congr_left
  intro a _
  simp

/-- Every cell of `(m + c) - m` is the constant `c`. -/
lemma matSub_addC_flatten (m : List (List ℚ)) (c : ℚ) :
    ∀ x ∈ (matSub (addC m c) m).flatten, x = c := by
  intro x hx
  obtain ⟨r, hr, hxr⟩ := List.mem_flatten.1 hx
  simp only [matSub, addC] at hr
  rw [zip_map_left, List.map_map] at hr
  obtain ⟨row, _, rfl⟩ := List.mem_map.1 hr
  simp only [Function.comp_apply] at hxr
  rw [zip_map_add_sub] at hxr
  obtain ⟨a, _, rfl⟩ := List.mem_map.1 hxr
  rfl

/-! ### Claim theorems -/

/-- C2 (counterexample): the claim quantifies over every pair of identical
equal-shape numeric matrices, but for a single-row pair sklearn's
`r2_score` returns NaN (modelled `none`), not 1: `evaluate` on the
identical 1×1 matrices `[[1.0]]` returns the record
`{r2_score: NaN, mse_score: 0, pos_max_err: 0, neg_max_err: 0}`. -/
theorem evaluate_identical_single_row_nan :
    evaluate [[(1 : ℚ)]] [[(1 : ℚ)]] = .ok ⟨none, 0, 0, 0⟩
      ∧ (none : Option ℚ) ≠ some 1 := by
  constructor
  · norm_num [evaluate, r2_score, mean_squared_error, checkArray, rectB, ncols,
      matSub, amax, amin]
  · simp

/-- C2 (amended): for every pair of identical rectangular numeric matrices
with at least two rows and at least one column, `evaluate` returns exactly
`mse_score = 0`, `r2_score = 1`, `pos_max_err = 0`, `neg_max_err = 0`. -/
theorem evaluate_identical (gt : List (List ℚ)) (hr : rectB gt = true)
    (h2 : 2 ≤ gt.length) (hc : ncols gt ≠ 0) :
    evaluate gt gt = .ok ⟨some 1, 0, 0, 0⟩ := by
  have h0 : gt.length ≠ 0 := by omega
  have hs := matSub_shape gt gt rfl hr hr rfl h0
  have hne : (matSub gt gt).flatten ≠ [] :=
    flatten_ne_nil _ (by rw [hs.1]; exact h0) hs.2.1 (by rw [hs.2.2]; exact hc)
  have hr2 : r2_score gt gt = .ok (some 1) := by
    rw [r2_score_self gt h0 hr hc, if_neg (not_lt.2 h2)]
  exact evaluate_eq gt gt (some 1) 0 0 0 hr2 (mean_squared_error_self gt h0 hr hc)
    (amax_const _ 0 hne (matSub_self_flatten gt))
    (amin_const _ 0 hne (matSub_self_flatten gt))

/-- C2 (witness): the spec's end-to-end scenario, prediction and ground
truth both `[[1.0, 2.0], [3.0, 4.0]]`. -/
theorem evaluate_identical_witness :
    rectB [[(1 : ℚ), 2], [3, 4]] = true
      ∧ 2 ≤ [[(1 : ℚ), 2], [3, 4]].length
      ∧ ncols [[(1 : ℚ), 2], [3, 4]] ≠ 0
      ∧ evaluate [[(1 : ℚ), 2], [3, 4]] [[(1 : ℚ), 2], [3, 4]]
          = .ok ⟨some 1, 0, 0, 0⟩ :=
  ⟨by decide, by decide, by decide,
    evaluate_identical _ (by decide) (by decide) (by decide)⟩

/-- C3: when every prediction cell exceeds the ground-truth cell by the same
constant `c > 0`, the evaluate stage returns `pos_max_err = c` and
`neg_max_err = c` (both equal the constant, the minimum included). -/
theorem evaluate_constant_shift (gt : List (List ℚ)) (c : ℚ) (hc : 0 < c)
    (hr : rectB gt = true) (h0 : gt.length ≠ 0) (hk : ncols gt ≠ 0) :
    ∃ r2 mse, evaluate gt (addC gt c) = .ok ⟨r2, mse, c, c⟩ := by
  have hlen : gt.length = (addC gt c).length := (addC_length gt c).symm
  have hrp : rectB (addC gt c) = true := rectB_addC gt c hr
  have hcp : ncols (addC gt c) = ncols gt := ncols_addC gt c
  have hr2 := r2_score_eval gt (addC gt c) hlen h0 hr hk hrp hcp
  have hmse := mean_squared_error_eval gt (addC gt c) hlen h0 hr hk hrp hcp
  have hsub := matSub_shape (addC gt c) gt (addC_length gt c) hrp hr hcp
    (by rw [addC_length]; exact h0)
  have hne : (matSub (addC gt c) gt).flatten ≠ [] :=
    flatten_ne_nil _ (by rw [hsub.1, addC_length]; exact h0) hsub.2.1
      (by rw [hsub.2.2, hcp]; exact hk)
  have hr2ok : ∃ r2v, r2_score gt (addC gt c) = .ok r2v := by
    rw [hr2]
    by_cases hlt : gt.length < 2
    · exact ⟨none, by rw [if_pos hlt]⟩
    · exact ⟨some _, by rw [if_neg hlt]⟩
  obtain ⟨r2v, hr2v⟩ := hr2ok
  exact ⟨r2v, _, evaluate_eq _ _ _ _ _ _ hr2v hmse
    (amax_const _ c hne (matSub_addC_flatten gt c))
    (amin_const _ c hne (matSub_addC_flatten gt c))⟩

/-- C3 (witness): ground truth `[[1, 2], [3, 4]]` shifted by `c = 2`. -/
theorem evaluate_constant_shift_witness :
    (0 : ℚ) < 2 ∧ rectB [[(1 : ℚ), 2], [3, 4]] = true
      ∧ [[(1 : ℚ), 2], [3, 4]].length ≠ 0
      ∧ ncols [[(1 : ℚ), 2], [3, 4]] ≠ 0
      ∧ ∃ r2 mse, evaluate [[(1 : ℚ), 2], [3, 4]] (addC [[(1 : ℚ), 2], [3, 4]] 2)
          = .ok ⟨r2, mse, 2, 2⟩ :=
  ⟨by norm_num, by decide, by decide, by decide,
    evaluate_constant_shift _ 2 (by norm_num) (by decide) (by decide) (by decide)⟩

/-- C4: mismatched shapes between ground truth and prediction make the
evaluate stage raise (the exception comes from `r2_score`, the first metric
call, so no metrics record is produced). -/
theorem evaluate_shape_mismatch (gt pred : List (List ℚ))
    (hrg : rectB gt = true) (hrp : rectB pred = true)
    (hne : shape gt ≠ shape pred) :
    ∃ e, evaluate gt pred = .error e := by
  by_cases hlen : gt.length = pred.length
  case neg =>
    have hmsg : r2_score gt pred
        = .error "Found input variables with inconsistent numbers of samples" := by
      simp [r2_score, hlen]
    exact ⟨_, evaluate_error_of_r2 _ _ _ hmsg⟩
  case pos =>
    have hcne : ncols gt ≠ ncols pred := by
      intro h
      exact hne (by simp [shape, hlen, h])
    by_cases h0 : gt.length = 0
    · have hg : gt = [] := List.length_eq_zero.1 h0
      have hp : pred = [] := List.length_eq_zero.1 (hlen ▸ h0)
      rw [hg, hp] at hcne
      exact absurd rfl hcne
    · by_cases hcg : ncols gt = 0
      · have hca : checkArray gt = .error "Found array with 0 feature(s)" := by
          simp [checkArray, h0, hrg, hcg]
        have hmsg : r2_score gt pred = .error "Found array with 0 feature(s)" := by
          simp [r2_score, hlen, hca]
        exact ⟨_, evaluate_error_of_r2 _ _ _ hmsg⟩
      · have hg : checkArray gt = .ok (gt.length, ncols gt) :=
          checkArray_ok gt h0 hrg hcg
        by_cases hcp : ncols pred = 0
        · have hp : checkArray pred = .error "Found array with 0 feature(s)" := by
            simp [checkArray, (show pred.length ≠ 0 by rw [← hlen]; exact h0), hrp, hcp]
          have hmsg : r2_score gt pred = .error "Found array with 0 feature(s)" := by
            simp [r2_score, hlen, hg, hp]
          exact ⟨_, evaluate_error_of_r2 _ _ _ hmsg⟩
        · have hp : checkArray pred = .ok (pred.length, ncols pred) :=
            checkArray_ok pred (by rw [← hlen]; exact h0) hrp hcp
          have hmsg : r2_score gt pred
              = .error "y_true and y_pred have different number of output" := by
            simp [r2_score, hlen, hg, hp, hcne]
          exact ⟨_, evaluate_error_of_r2 _ _ _ hmsg⟩

/-- C6: on every pair of equal-shape non-empty rectangular matrices the
evaluate stage succeeds and returns `pos_max_err` equal to the maximum of
the signed differences `prediction - ground_truth` (an element of the
difference matrix bounding every element from above) and `neg_max_err`
equal to their minimum (an element bounding every element from below);
nothing constrains their signs. -/
theorem evaluate_signed_extrema (gt pred : List (List ℚ))
    (hrg : rectB gt = true) (hrp : rectB pred = true)
    (hs : shape gt = shape pred) (h0 : gt.length ≠ 0) (hk : ncols gt ≠ 0) :
    ∃ m, evaluate gt pred = .ok m
      ∧ m.pos_max_err ∈ (matSub pred gt).flatten
      ∧ (∀ x ∈ (matSub pred gt).flatten, x ≤ m.pos_max_err)
      ∧ m.neg_max_err ∈ (matSub pred gt).flatten
      ∧ (∀ x ∈ (matSub pred gt).flatten, m.neg_max_err ≤ x) := by
  have hlen : gt.length = pred.length := congrArg Prod.fst hs
  have hcols : ncols pred = ncols gt := (congrArg Prod.snd hs).symm
  have hr2 := r2_score_eval gt pred hlen h0 hrg hk hrp hcols
  have hmse := mean_squared_error_eval gt pred hlen h0 hrg hk hrp hcols
  have hsub := matSub_shape pred gt hlen.symm hrp hrg hcols
    (by rw [← hlen]; exact h0)
  have hne : (matSub pred gt).flatten ≠ [] :=
    flatten_ne_nil _ (by rw [hsub.1, ← hlen]; exact h0) hsub.2.1
      (by rw [hsub.2.2, hcols]; exact hk)
  obtain ⟨vmax, hvmax, hmaxmem, hmaxub⟩ := amax_spec _ hne
  obtain ⟨vmin, hvmin, hminmem, hminlb⟩ := amin_spec _ hne
  have hr2ok : ∃ r2v, r2_score gt pred = .ok r2v := by
    rw [hr2]
    by_cases hlt : gt.length < 2
    · exact ⟨none, by rw [if_pos hlt]⟩
    · exact ⟨some _, by rw [if_neg hlt]⟩
  obtain ⟨r2v, hr2v⟩ := hr2ok
  exact ⟨⟨r2v, _, vmax, vmin⟩,
    evaluate_eq _ _ _ _ _ _ hr2v hmse hvmax hvmin,
    hmaxmem, hmaxub, hminmem, hminlb⟩

/-- C6 (witness): ground truth `[[1, 2], [3, 4]]` against prediction
`[[0, 5], [2, 2]]`; the differences are `[[-1, 3], [-1, -2]]`. -/
theorem evaluate_signed_extrema_witness :
    rectB [[(1 : ℚ), 2], [3, 4]] = true ∧ rectB [[(0 : ℚ), 5], [2, 2]] = true
      ∧ shape [[(1 : ℚ), 2], [3, 4]] = shape [[(0 : ℚ), 5], [2, 2]]
      ∧ [[(1 : ℚ), 2], [3, 4]].length ≠ 0 ∧ ncols [[(1 : ℚ), 2], [3, 4]] ≠ 0
      ∧ ∃ m, evaluate [[(1 : ℚ), 2], [3, 4]] [[(0 : ℚ), 5], [2, 2]] = .ok m
        ∧ m.pos_max_err ∈ (matSub [[(0 : ℚ), 5], [2, 2]] [[(1 : ℚ), 2], [3, 4]]).flatten
        ∧ (∀ x ∈ (matSub [[(0 : ℚ), 5], [2, 2]] [[(1 : ℚ), 2], [3, 4]]).flatten,
            x ≤ m.pos_max_err)
        ∧ m.neg_max_err ∈ (matSub [[(0 : ℚ), 5], [2, 2]] [[(1 : ℚ), 2], [3, 4]]).flatten
        ∧ (∀ x ∈ (matSub [[(0 : ℚ), 5], [2, 2]] [[(1 : ℚ), 2], [3, 4]]).flatten,
            m.neg_max_err ≤ x) :=
  ⟨by decide, by decide, by decide, by decide, by decide,
    evaluate_signed_extrema _ _ (by decide) (by decide) (by decide) (by decide)
      (by decide)⟩

/-- C10: whenever the evaluate stage returns a metrics record, its
`neg_max_err` does not exceed its `pos_max_err` (the minimum of the error
matrix never exceeds its maximum). -/
theorem neg_max_le_pos_max (gt pred : List (List ℚ)) (m : Metrics)
    (h : evaluate gt pred = .ok m) : m.neg_max_err ≤ m.pos_max_err := by
  unfold evaluate at h
  rcases hr2 : r2_score gt pred with e | r2 <;> rw [hr2] at h
  · simp at h
  rcases hmse : mean_squared_error gt pred with e | mse <;> rw [hmse] at h
  · simp at h
  rcases hfl : (matSub pred gt).flatten with _ | ⟨x, xs⟩ <;>
    simp only [amax, amin, hfl] at h
  · simp at h
  simp only [Except.ok.injEq] at h
  rw [← h]
  have hmin := foldl_min_mem x xs
  exact le_foldl_max x xs _ hmin

/-- C10 (witness): the run from the C6 witness input, where
`pos_max_err = 3` and `neg_max_err = -2`. -/
theorem neg_max_le_pos_max_witness :
    evaluate [[(1 : ℚ), 2], [3, 4]] [[(0 : ℚ), 5], [2, 2]]
        = .ok ⟨some (-11 / 4), 15 / 4, 3, -2⟩
      ∧ (⟨some (-11 / 4), 15 / 4, 3, -2⟩ : Metrics).neg_max_err
          ≤ (⟨some (-11 / 4), 15 / 4, 3, -2⟩ : Metrics).pos_max_err := by
  have hev : evaluate [[(1 : ℚ), 2], [3, 4]] [[(0 : ℚ), 5], [2, 2]]
      = .ok ⟨some (-11 / 4), 15 / 4, 3, -2⟩ := by
    norm_num [evaluate, r2_score, mean_squared_error, checkArray, rectB, ncols,
      colScore, colNum, colDen, colMean, col, matSub, amax, amin, List.range_succ]
  exact ⟨hev, neg_max_le_pos_max _ _ _ hev⟩

/-- C4 (witness): a 1×1 ground truth against a 2×1 prediction. -/
theorem evaluate_shape_mismatch_witness :
    rectB [[(1 : ℚ)]] = true ∧ rectB [[(1 : ℚ)], [2]] = true
      ∧ shape [[(1 : ℚ)]] ≠ shape [[(1 : ℚ)], [2]]
      ∧ ∃ e, evaluate [[(1 : ℚ)]] [[(1 : ℚ)], [2]] = .error e :=
  ⟨by decide, by decide, by decide,
    evaluate_shape_mismatch _ _ (by decide) (by decide) (by decide)⟩

/-- C5: a uid-set mismatch only raises the warning flag: the task returns
normally (`data_collect` is a total function and the mismatch branch
contains no raise), the prediction is passed through unchanged, and the
ground truth it returns is exactly what it would return for any other uid
list — the mismatch neither filters nor alters the data, so the run
proceeds with the possibly misaligned data as-is. -/
theorem uid_mismatch_warns_only (p : List (List ℚ)) (uid : List ℕ)
    (qa : List QARow) (ts : List String)
    (h : setEq uid (qa.map (fun r => r.mapping_uid)) = false) :
    (data_collect p uid qa ts).warned = true
      ∧ (data_collect p uid qa ts).prediction = p
      ∧ ∀ uid', (data_collect p uid' qa ts).ground_truth
          = (data_collect p uid qa ts).ground_truth := by
  refine ⟨?_, rfl, fun uid' => rfl⟩
  simp [data_collect, h]

/-- C5 (witness): prediction uid set `{1}` against ground-truth uid set
`{2}`. -/
theorem uid_mismatch_warns_only_witness :
    setEq [1] (([⟨2, fun _ => some 1⟩] : List QARow).map (fun r => r.mapping_uid))
        = false
      ∧ ((data_collect [[(1 : ℚ)]] [1] [⟨2, fun _ => some 1⟩] ["b"]).warned = true
        ∧ (data_collect [[(1 : ℚ)]] [1] [⟨2, fun _ => some 1⟩] ["b"]).prediction
            = [[(1 : ℚ)]]
        ∧ ∀ uid', (data_collect [[(1 : ℚ)]] uid' [⟨2, fun _ => some 1⟩] ["b"]).ground_truth
            = (data_collect [[(1 : ℚ)]] [1] [⟨2, fun _ => some 1⟩] ["b"]).ground_truth) :=
  ⟨by decide, uid_mismatch_warns_only _ _ _ _ (by decide)⟩

/-- C9: the uid comparison uses the `mapping_uid` column captured before
`dropna`: the warning flag is exactly the set comparison against all
`mapping_uid`s of the fetched table (rows about to be dropped included),
and any two tables with the same `mapping_uid` column yield the same flag
whatever their cell values or the selected target columns — so dropping
rows for missing target values by itself never makes the warning appear or
disappear. -/
theorem uid_check_before_dropna (p p' : List (List ℚ)) (uid : List ℕ)
    (qa qa' : List QARow) (ts ts' : List String)
    (h : qa.map (fun r => r.mapping_uid) = qa'.map (fun r => r.mapping_uid)) :
    (data_collect p uid qa ts).warned
        = !setEq uid (qa.map (fun r => r.mapping_uid))
      ∧ (data_collect p uid qa ts).warned
        = (data_collect p' uid qa' ts').warned := by
  constructor
  · rfl
  · show (!setEq uid (qa.map fun r => r.mapping_uid))
        = (!setEq uid (qa'.map fun r => r.mapping_uid))
    rw [h]

/-- C9 (witness): two one-row tables with the same `mapping_uid` column;
in the first the row is dropped by `dropna`, in the second it is kept, and
the warning flag is the same. -/
theorem uid_check_before_dropna_witness :
    ([⟨1, fun _ => none⟩] : List QARow).map (fun r => r.mapping_uid)
        = ([⟨1, fun _ => some 1⟩] : List QARow).map (fun r => r.mapping_uid)
      ∧ ((data_collect [] [1] [⟨1, fun _ => none⟩] ["b"]).warned
          = !setEq [1] (([⟨1, fun _ => none⟩] : List QARow).map (fun r => r.mapping_uid))
        ∧ (data_collect [] [1] [⟨1, fun _ => none⟩] ["b"]).warned
          = (data_collect [[(5 : ℚ)]] [1] [⟨1, fun _ => some 1⟩] ["c"]).warned) :=
  ⟨by decide, uid_check_before_dropna _ _ _ _ _ _ _ (by decide)⟩

/-- C1 (counterexample): ground truth with items 1 and 2 where item 2 has a
missing target value, and a prediction with a row for both items.
`data_collect` drops the row (and, since the uid sets still match, warns
nothing), leaving a 1×1 ground truth against a 2×1 prediction — and the
evaluate stage then raises a shape-mismatch exception instead of
completing, contradicting the claim. -/
theorem dropna_row_breaks_evaluate :
    (⟨2, fun _ => none⟩ : QARow) ∈
        ([⟨1, fun t => if t = "b" then some 1 else none⟩,
          ⟨2, fun _ => none⟩] : List QARow)
      ∧ (⟨2, fun _ => none⟩ : QARow).cells "b" = none
      ∧ (2 : ℕ) ∈ [1, 2]
      ∧ (data_collect [[(1 : ℚ)], [2]] [1, 2]
            [⟨1, fun t => if t = "b" then some 1 else none⟩, ⟨2, fun _ => none⟩]
            ["b"]).ground_truth = [[1]]
      ∧ evaluate
          (data_collect [[(1 : ℚ)], [2]] [1, 2]
            [⟨1, fun t => if t = "b" then some 1 else none⟩, ⟨2, fun _ => none⟩]
            ["b"]).ground_truth
          (data_collect [[(1 : ℚ)], [2]] [1, 2]
            [⟨1, fun t => if t = "b" then some 1 else none⟩, ⟨2, fun _ => none⟩]
            ["b"]).prediction
        = .error "Found input variables with inconsistent numbers of samples" := by
  refine ⟨List.mem_cons.2 (Or.inr (List.mem_cons_self _ _)), rfl, by decide, ?_, ?_⟩
  · norm_num [data_collect, selectRow]
  · have hgt : (data_collect [[(1 : ℚ)], [2]] [1, 2]
        [⟨1, fun t => if t = "b" then some 1 else none⟩, ⟨2, fun _ => none⟩]
        ["b"]).ground_truth = [[1]] := by
      norm_num [data_collect, selectRow]
    have hp : (data_collect [[(1 : ℚ)], [2]] [1, 2]
        [⟨1, fun t => if t = "b" then some 1 else none⟩, ⟨2, fun _ => none⟩]
        ["b"]).prediction = [[(1 : ℚ)], [2]] := rfl
    rw [hgt, hp]
    simp [evaluate, r2_score]

/-- C1 (amended): a ground-truth row with a missing target value is removed
by `data_collect` before evaluation, and `data_collect` itself raises
nothing; but when the prediction keeps one row per fetched ground-truth
item, the pruned ground truth is strictly shorter than the prediction and
the subsequent evaluate stage raises a shape-mismatch exception instead of
completing. -/
theorem dropna_removes_row_then_evaluate_raises
    (p : List (List ℚ)) (uid : List ℕ) (qa : List QARow) (ts : List String)
    (r : QARow) (t : String) (hr : r ∈ qa) (ht : t ∈ ts)
    (hmiss : r.cells t = none) (hplen : p.length = qa.length) :
    (data_collect p uid qa ts).ground_truth.length < qa.length
      ∧ ∃ e, evaluate (data_collect p uid qa ts).ground_truth
          (data_collect p uid qa ts).prediction = .error e := by
  have hlen : (data_collect p uid qa ts).ground_truth.length
      = ((qa.map (selectRow ts)).filter
          (fun row => row.all (fun c => c.isSome))).length := by
    simp [data_collect]
  have hmem : selectRow ts r ∈ qa.map (selectRow ts) :=
    List.mem_map_of_mem _ hr
  have hfail : ¬ ((selectRow ts r).all (fun c => c.isSome) = true) := by
    rw [List.all_eq_true]
    intro hall
    have := hall (r.cells t) (List.mem_map_of_mem _ ht)
    rw [hmiss] at this
    exact Bool.noConfusion this
  have hlt : (data_collect p uid qa ts).ground_truth.length < qa.length := by
    rw [hlen]
    calc ((qa.map (selectRow ts)).filter
            (fun row => row.all (fun c => c.isSome))).length
        < (qa.map (selectRow ts)).length :=
          List.length_filter_lt_length_iff_exists.2 ⟨_, hmem, hfail⟩
      _ = qa.length := List.length_map _ _
  refine ⟨hlt, ?_⟩
  have hpred : (data_collect p uid qa ts).prediction = p := rfl
  have hne : (data_collect p uid qa ts).ground_truth.length
      ≠ (data_collect p uid qa ts).prediction.length := by
    rw [hpred, hplen]
    omega
  have hmsg : r2_score (data_collect p uid qa ts).ground_truth
      (data_collect p uid qa ts).prediction
      = .error "Found input variables with inconsistent numbers of samples" := by
    simp [r2_score, hne]
  exact ⟨_, evaluate_error_of_r2 _ _ _ hmsg⟩

/-- The try/except wrapper never changes the stage's result value: it only
adds the diagnostic print on failure. -/
lemma runStage_snd {α : Type} (n : String) (b : Except String α) :
    (runStage n b).2 = b := by
  cases b <;> rfl

/-- C7: a successful pipeline run carries exactly one metrics record — the
evaluate task's output — to both downstream tasks: `collect_metric`'s
response is `_LOG_METRIC(model_id, m)` and `send_result`'s is
`_SEND_RESULT(model_id, dag_run, m)`, each computed from that same record
and neither from the other's response (the `Metrics` structure carries
exactly the four fields `r2_score`, `mse_score`, `pos_max_err`,
`neg_max_err`). -/
theorem pipeline_single_record {α β D : Type}
    (fp : Except String (List (List ℚ) × List ℕ))
    (fqa : Except String (List QARow)) (ts : List String)
    (mid : String) (dr : D)
    (lm : String → Metrics → Except String α)
    (sr : String → D → Metrics → Except String β)
    (m : Metrics) (a : Except String α) (b : Except String β)
    (h : model_evaluate fp fqa ts mid dr lm sr = .ok (m, a, b)) :
    (∃ c, (data_collect_task fp fqa ts).2 = .ok c
        ∧ (evaluate_task c.ground_truth c.prediction).2 = .ok m)
      ∧ a = lm mid m ∧ b = sr mid dr m := by
  unfold model_evaluate at h
  split at h
  next e hdc => exact absurd h (by simp)
  next c hdc =>
    split at h
    next e hev => exact absurd h (by simp)
    next m' hev =>
      simp only [Except.ok.injEq, Prod.mk.injEq] at h
      obtain ⟨hm, ha, hb⟩ := h
      subst hm
      refine ⟨⟨c, hdc, hev⟩, ?_, ?_⟩
      · rw [← ha]
        unfold collect_metric_task
        rw [runStage_snd]
      · rw [← hb]
        unfold send_result_task
        rw [runStage_snd]

/-- C7 (witness): a concrete successful run; both downstream responses are
computed from the single record `{r2_score: 1, mse_score: 0, pos_max_err:
0, neg_max_err: 0}`. -/
theorem pipeline_single_record_witness :
    model_evaluate (.ok ([[(1 : ℚ)], [2]], [1, 2]))
        (.ok [⟨1, fun _ => some 1⟩, ⟨2, fun _ => some 2⟩]) ["b"] "m" (0 : ℕ)
        (fun _ m => .ok m.mse_score) (fun _ _ m => .ok m.pos_max_err)
        = .ok (⟨some 1, 0, 0, 0⟩, .ok 0, .ok 0)
      ∧ ((∃ c, (data_collect_task (.ok ([[(1 : ℚ)], [2]], [1, 2]))
              (.ok [⟨1, fun _ => some 1⟩, ⟨2, fun _ => some 2⟩]) ["b"]).2 = .ok c
          ∧ (evaluate_task c.ground_truth c.prediction).2
              = .ok ⟨some 1, 0, 0, 0⟩)
        ∧ (.ok 0 : Except String ℚ)
            = (fun _ m => .ok m.mse_score : String → Metrics → Except String ℚ)
                "m" ⟨some 1, 0, 0, 0⟩
        ∧ (.ok 0 : Except String ℚ)
            = (fun _ _ m => .ok m.pos_max_err :
                String → ℕ → Metrics → Except String ℚ) "m" (0 : ℕ)
                ⟨some 1, 0, 0, 0⟩) := by
  have h : model_evaluate (.ok ([[(1 : ℚ)], [2]], [1, 2]))
      (.ok [⟨1, fun _ => some 1⟩, ⟨2, fun _ => some 2⟩]) ["b"] "m" (0 : ℕ)
      (fun _ m => .ok m.mse_score) (fun _ _ m => .ok m.pos_max_err)
      = .ok (⟨some 1, 0, 0, 0⟩, .ok 0, .ok 0) := by
    norm_num [model_evaluate, data_collect_task, evaluate_task,
      collect_metric_task, send_result_task, runStage, data_collect, selectRow,
      setEq, evaluate, r2_score, mean_squared_error, checkArray, rectB, ncols,
      colScore, colNum, colDen, colMean, col, matSub, amax, amin,
      List.range_succ, Bind.bind, Except.bind, Pure.pure, Except.pure]
  exact ⟨h, pipeline_single_record _ _ _ _ _ _ _ _ _ _ h⟩

/-- C8: each of the four tasks, on an exception raised in its body, prints
`Error in <stage>: <message>` naming the stage and re-raises the very same
exception — the task's result is exactly the original error, never a
retried or recovered value.  For `data_collect` the raise sites are the two
external fetches, for `evaluate` the metric computation, for
`collect_metric` and `send_result` the transport call. -/
theorem stage_logs_and_reraises {α β D : Type} (e1 e2 e3 e4 e5 : String)
    (fqa : Except String (List QARow)) (ts : List String)
    (pu : List (List ℚ) × List ℕ) (gt pred : List (List ℚ))
    (lm : String → Metrics → Except String α) (mid : String) (mr : Metrics)
    (dr : D) (sr : String → D → Metrics → Except String β) :
    (data_collect_task (.error e1) fqa ts
        = (["Error in data_collect: " ++ e1], .error e1))
      ∧ (data_collect_task (.ok pu) (.error e2) ts
        = (["Error in data_collect: " ++ e2], .error e2))
      ∧ (evaluate gt pred = .error e3 →
          evaluate_task gt pred = (["Error in evaluate: " ++ e3], .error e3))
      ∧ (lm mid mr = .error e4 →
          collect_metric_task lm mid mr
            = (["Error in collect_metric: " ++ e4], .error e4))
      ∧ (sr mid dr mr = .error e5 →
          send_result_task sr mid dr mr
            = (["Error in send_result: " ++ e5], .error e5)) := by
  refine ⟨rfl, rfl, ?_, ?_, ?_⟩
  · intro h
    unfold evaluate_task
    rw [h]
    rfl
  · intro h
    unfold collect_metric_task
    rw [h]
    rfl
  · intro h
    unfold send_result_task
    rw [h]
    rfl

/-- C8 (witness): a failing fetch in each position of `data_collect`, an
empty-input failure of `evaluate`, and failing transports in
`collect_metric` and `send_result`. -/
theorem stage_logs_and_reraises_witness :
    (data_collect_task (.error "fetch down") (.ok []) []
        = (["Error in data_collect: fetch down"], .error "fetch down"))
      ∧ (data_collect_task (.ok ([], [])) (.error "qa down") []
        = (["Error in data_collect: qa down"], .error "qa down"))
      ∧ (evaluate_task [] []
        = (["Error in evaluate: Found array with 0 sample(s)"],
            .error "Found array with 0 sample(s)"))
      ∧ (collect_metric_task (fun _ _ => (.error "log down" : Except String ℚ))
            "m" ⟨none, 0, 0, 0⟩
        = (["Error in collect_metric: log down"], .error "log down"))
      ∧ (send_result_task (fun _ _ _ => (.error "send down" : Except String ℚ))
            "m" (0 : ℕ) ⟨none, 0, 0, 0⟩
        = (["Error in send_result: send down"], .error "send down")) := by
  have T := stage_logs_and_reraises
    "fetch down" "qa down" "Found array with 0 sample(s)" "log down" "send down"
    (Except.ok []) ([] : List String) (([], []) : List (List ℚ) × List ℕ)
    ([] : List (List ℚ)) ([] : List (List ℚ))
    (fun _ _ => (.error "log down" : Except String ℚ)) "m" ⟨none, 0, 0, 0⟩
    (0 : ℕ) (fun _ _ _ => (.error "send down" : Except String ℚ))
  exact ⟨T.1, T.2.1,
    T.2.2.1 (by simp [evaluate, r2_score, checkArray]),
    T.2.2.2.1 rfl, T.2.2.2.2 rfl⟩

/-- C1 (witness for the amended claim): the counterexample input. -/
theorem dropna_removes_row_witness :
    ((⟨2, fun _ => none⟩ : QARow) ∈
        ([⟨1, fun t => if t = "b" then some 1 else none⟩,
          ⟨2, fun _ => none⟩] : List QARow))
      ∧ ("b" ∈ ["b"])
      ∧ ((⟨2, fun _ => none⟩ : QARow).cells "b" = none)
      ∧ ([[(1 : ℚ)], [2]].length
          = ([⟨1, fun t => if t = "b" then some 1 else none⟩,
              ⟨2, fun _ => none⟩] : List QARow).length)
      ∧ ((data_collect [[(1 : ℚ)], [2]] [1, 2]
            [⟨1, fun t => if t = "b" then some 1 else none⟩, ⟨2, fun _ => none⟩]
            ["b"]).ground_truth.length
          < ([⟨1, fun t => if t = "b" then some 1 else none⟩,
              ⟨2, fun _ => none⟩] : List QARow).length
        ∧ ∃ e, evaluate
            (data_collect [[(1 : ℚ)], [2]] [1, 2]
              [⟨1, fun t => if t = "b" then some 1 else none⟩, ⟨2, fun _ => none⟩]
              ["b"]).ground_truth
            (data_collect [[(1 : ℚ)], [2]] [1, 2]
              [⟨1, fun t => if t = "b" then some 1 else none⟩, ⟨2, fun _ => none⟩]
              ["b"]).prediction = .error e) :=
  ⟨List.mem_cons.2 (Or.inr (List.mem_cons_self _ _)), List.mem_cons_self _ _, rfl, rfl,
    dropna_removes_row_then_evaluate_raises _ _ _ _ _ _
      (List.mem_cons.2 (Or.inr (List.mem_cons_self _ _))) (List.mem_cons_self _ _)
      rfl rfl⟩

end ModelEvaluate
